import Mathlib

/-!
Shallow embedding of `src/main.py` of the car_discount_uploader repository:
the `validate_data` routine, the `upload_to_bigquery` routine, and the
upload pipeline of `main` that feeds the (possibly mutated) dataframe from
validation into ingestion.

A pandas DataFrame is modelled column-wise: a list of (column name, column)
pairs, where a column is a list of cell values.  A cell is null (NaN),
a string, or a number (rationals stand for Python floats; no claim here
depends on float rounding).  `pd.to_numeric(col, errors='coerce')` is
modelled per cell by `toNumericCoerce`, with a concrete decimal-literal
parser `parseFloat` standing for Python's numeric-string parsing.
-/

set_option maxRecDepth 4000

namespace CarDiscount

/-- One cell of the dataframe: NaN/None, a string, or a numeric value. -/
inductive Value where
  | null : Value
  | str : String → Value
  | num : Rat → Value
deriving DecidableEq, Repr

/-- True for the cells a numeric-dtype pandas column can hold (numbers and NaN). -/
def Value.isNumOrNull : Value → Bool
  | .null => true
  | .num _ => true
  | .str _ => false

/-- Value of a run of decimal digit characters. -/
def digitsVal (ds : List Char) : Nat :=
  ds.foldl (fun a c => a * 10 + (c.toNat - 48)) 0

/-- Strip whitespace from both ends of a character list (Python parsing
of numeric strings ignores surrounding whitespace). -/
def trimChars (cs : List Char) : List Char :=
  ((cs.dropWhile Char.isWhitespace).reverse.dropWhile Char.isWhitespace).reverse

/-- The syntactic pieces of a decimal literal: sign, integer digits,
fractional digits (with their count, for the power of ten), exponent sign
and exponent digits. -/
structure ParsedNum where
  neg : Bool
  intPart : Nat
  fracPart : Nat
  fracLen : Nat
  expNeg : Bool
  expVal : Nat
deriving DecidableEq, Repr

/-- Character-level grammar of the decimal literals Python/pandas numeric
conversion accepts: optional sign, digits with an optional decimal point
(at least one digit), optional exponent.  Returns `none` when the string
is not a number (in particular for the empty string). -/
def parseParts (s : String) : Option ParsedNum :=
  let cs := trimChars s.toList
  let signAndRest : Bool × List Char :=
    match cs with
    | '-' :: rest => (true, rest)
    | '+' :: rest => (false, rest)
    | _ => (false, cs)
  let afterSign := signAndRest.2
  let intDigits := afterSign.takeWhile Char.isDigit
  let afterInt := afterSign.dropWhile Char.isDigit
  let fracAndRest : List Char × List Char :=
    match afterInt with
    | '.' :: rest => (rest.takeWhile Char.isDigit, rest.dropWhile Char.isDigit)
    | _ => ([], afterInt)
  let fracDigits := fracAndRest.1
  let afterFrac := fracAndRest.2
  if intDigits.isEmpty && fracDigits.isEmpty then none
  else
    match afterFrac with
    | [] =>
      some ⟨signAndRest.1, digitsVal intDigits, digitsVal fracDigits, fracDigits.length,
        false, 0⟩
    | e :: rest =>
      if e = 'e' || e = 'E' then
        let expSignAndRest : Bool × List Char :=
          match rest with
          | '-' :: r => (true, r)
          | '+' :: r => (false, r)
          | _ => (false, rest)
        let expDigits := expSignAndRest.2.takeWhile Char.isDigit
        let afterExp := expSignAndRest.2.dropWhile Char.isDigit
        if expDigits.isEmpty || !afterExp.isEmpty then none
        else
          some ⟨signAndRest.1, digitsVal intDigits, digitsVal fracDigits, fracDigits.length,
            expSignAndRest.1, digitsVal expDigits⟩
      else none

/-- Numeric value of a parsed decimal literal. -/
def partsToRat (p : ParsedNum) : Rat :=
  let sign : Rat := if p.neg then -1 else 1
  let mantissa : Rat := (p.intPart : Rat) + (p.fracPart : Rat) / (10 : Rat) ^ p.fracLen
  if p.expNeg then sign * mantissa / (10 : Rat) ^ p.expVal
  else sign * mantissa * (10 : Rat) ^ p.expVal

/-- Parse a decimal literal the way Python/pandas numeric conversion does. -/
def parseFloat (s : String) : Option Rat :=
  (parseParts s).map partsToRat

/-- One cell of `pd.to_numeric(col, errors='coerce')`: numbers and NaN pass
through, a string becomes its parsed value, and an unparseable string is
silently coerced to NaN.  With `errors='coerce'` the conversion never raises. -/
def toNumericCoerce : Value → Value
  | .null => .null
  | .num q => .num q
  | .str s =>
    match parseFloat s with
    | some q => .num q
    | none => .null

/-- Columnar dataframe: association list from column name to column. -/
structure DataFrame where
  cols : List (String × List Value)
deriving DecidableEq, Repr

/-- First column associated with a name (pandas column access `df[c]`);
an absent column reads as empty. -/
def getColAux (c : String) : List (String × List Value) → List Value
  | [] => []
  | p :: rest => if p.1 = c then p.2 else getColAux c rest

def DataFrame.getCol (df : DataFrame) (c : String) : List Value :=
  getColAux c df.cols

/-- Column names of the dataframe, in order (`df.columns`). -/
def DataFrame.names (df : DataFrame) : List String :=
  df.cols.map Prod.fst

/-- Column assignment `df[c] = v`: replaces the named column in place,
or appends a new column when the name is absent. -/
def DataFrame.setCol (df : DataFrame) (c : String) (v : List Value) : DataFrame :=
  if df.names.contains c then
    ⟨df.cols.map (fun p => if p.1 = c then (p.1, v) else p)⟩
  else
    ⟨df.cols ++ [(c, v)]⟩

/-- Row count `len(df)` (the length of the columns; for the empty frame, 0). -/
def DataFrame.numRows (df : DataFrame) : Nat :=
  match df.cols with
  | [] => 0
  | (_, v) :: _ => v.length

/-- Dtype of a column is numeric exactly when every cell is a number or NaN
(`pd.api.types.is_numeric_dtype`). -/
def isNumericDtype (col : List Value) : Bool :=
  col.all Value.isNumOrNull

def required_columns : List String :=
  ["c_code", "flash_price", "consignment_price", "speed_discount_price"]

def price_columns : List String :=
  ["flash_price", "consignment_price", "speed_discount_price"]

/-- The columns of `required_columns` absent from the dataframe
(line 21 of main.py). -/
def missingColumns (df : DataFrame) : List String :=
  required_columns.filter (fun c => !(df.names.contains c))

/-- Line 26 of main.py:
`df['c_code'].isnull().any() or (df['c_code'] == '').any()`. -/
def hasEmptyCode (df : DataFrame) : Bool :=
  (df.getCol "c_code").any (fun v => v = Value.null) ||
    (df.getCol "c_code").any (fun v => v = Value.str "")

/-- Pandas `duplicated()` marks every occurrence with an equal earlier
occurrence; `df[df['c_code'].duplicated()]['c_code'].tolist()` is then the
list of those marked values in order.  `seen` is the set of values already
passed. -/
def dupExtras (seen : List Value) : List Value → List Value
  | [] => []
  | v :: vs => if v ∈ seen then v :: dupExtras (v :: seen) vs else dupExtras (v :: seen) vs

/-- Rendering of a cell for `', '.join(...)` of the duplicate message;
the uploaded c_code values are strings, for which this is exact. -/
def valueStr : Value → String
  | .null => "nan"
  | .str s => s
  | .num q => toString q

/-- One iteration of the price-coercion loop (lines 36-41 of main.py):
a price column that is not already of numeric dtype is replaced by its
element-wise `pd.to_numeric(..., errors='coerce')` image.  Because
`errors='coerce'` never raises, the `except` branch of the source
(returning a failure naming the column) is unreachable. -/
def normStep (df : DataFrame) (c : String) : DataFrame :=
  if isNumericDtype (df.getCol c) then df
  else df.setCol c ((df.getCol c).map toNumericCoerce)

/-- The whole price-coercion loop over the three price columns. -/
def normalizePrices (df : DataFrame) : DataFrame :=
  price_columns.foldl normStep df

/-- Embedding of `validate_data` (lines 16-43 of main.py).  The result
carries the dataframe the call leaves behind, since the source mutates
`df` in place in the coercion loop. -/
def validate_data (df : DataFrame) : Bool × String × DataFrame :=
  if missingColumns df ≠ [] then
    (false, "Missing required columns: " ++ String.intercalate ", " (missingColumns df), df)
  else if hasEmptyCode df then
    (false, "c_code column cannot have empty values", df)
  else if dupExtras [] (df.getCol "c_code") ≠ [] then
    (false,
      "Duplicate c_code values found: " ++
        String.intercalate ", " ((dupExtras [] (df.getCol "c_code")).map valueStr),
      df)
  else
    (true, "Data validation successful", normalizePrices df)

/-- An authenticated write-capable service-account credential; the claims
need only presence or absence, so an opaque token models it. -/
structure Credentials where
  token : String
deriving DecidableEq, Repr

/-- One field of the BigQuery load-job schema declaration. -/
structure SchemaField where
  name : String
  fieldType : String
  mode : String
deriving DecidableEq, Repr

/-- The fixed schema of the load job (lines 72-77 of main.py). -/
def jobSchema : List SchemaField :=
  [⟨"c_code", "STRING", "REQUIRED"⟩,
   ⟨"flash_price", "FLOAT64", "NULLABLE"⟩,
   ⟨"consignment_price", "FLOAT64", "NULLABLE"⟩,
   ⟨"speed_discount_price", "FLOAT64", "NULLABLE"⟩]

/-- The write disposition of the load job (line 71 of main.py). -/
def writeDisposition : String := "WRITE_APPEND"

/-- The fully qualified target table (line 67 of main.py). -/
def table_id : String := "pricing-338819.wholesale_test.showroom_discount"

/-- One row of the target table, under the four-field schema. -/
structure BQRow where
  c_code : Value
  flash_price : Value
  consignment_price : Value
  speed_discount_price : Value
deriving DecidableEq, Repr

/-- Rows written by the load job: the dataframe read off row-wise under the
schema's four fields. -/
def zipRows : List Value → List Value → List Value → List Value → List BQRow
  | a :: as, b :: bs, c :: cs, d :: ds => ⟨a, b, c, d⟩ :: zipRows as bs cs ds
  | _, _, _, _ => []

def dfToRows (df : DataFrame) : List BQRow :=
  zipRows (df.getCol "c_code") (df.getCol "flash_price")
    (df.getCol "consignment_price") (df.getCol "speed_discount_price")

/-- Embedding of `upload_to_bigquery` (lines 47-87 of main.py).
`secrets` models `st.secrets["service_account"]` (absent → KeyError /
FileNotFoundError), `localFile` models `service_account.json` on disk
(absent → FileNotFoundError); the source tries them in that order and
returns the credential failure when both are missing, before any client
or network interaction.  `storeJobError` models the outcome of the load
job: `none` when the store confirms the write, `some e` when any
store-side step raises, which the outer handler turns into a failure
message.  The result carries the table state after the call. -/
def upload_to_bigquery (secrets localFile : Option Credentials)
    (storeJobError : Option String) (df : DataFrame) (table : List BQRow) :
    Bool × String × List BQRow :=
  match secrets, localFile with
  | none, none => (false, "Error: No credentials found for BigQuery access", table)
  | _, _ =>
    match storeJobError with
    | some e => (false, "Error appending to BigQuery: " ++ e, table)
    | none =>
      (true,
        "Successfully uploaded " ++ toString df.numRows ++ " rows to showroom_discount table",
        table ++ dfToRows df)

/-- The upload pipeline of `main` (lines 174-195 of main.py): validation
mutates `df` in place, and on success the same object — hence here the
dataframe component of the validation result — is what is uploaded. -/
def runUpload (df : DataFrame) (secrets localFile : Option Credentials)
    (storeJobError : Option String) (table : List BQRow) :
    Bool × String × List BQRow :=
  let v := validate_data df
  if v.1 then upload_to_bigquery secrets localFile storeJobError v.2.2 table
  else (false, v.2.1, table)

/-- A dataframe parsed from a tabular file is rectangular: every column
read by name has the dataframe's row count. -/
def Rect (df : DataFrame) : Prop :=
  ∀ c ∈ df.names, (df.getCol c).length = df.numRows

instance (df : DataFrame) : Decidable (Rect df) := by
  unfold Rect; infer_instance

/-! Concrete datasets used to instantiate the claims. -/

/-- Scenario D of the spec: one row whose flash_price is the unparseable
string "abc". -/
def dfScenD : DataFrame :=
  ⟨[("c_code", [Value.str "c-001"]),
    ("flash_price", [Value.str "abc"]),
    ("consignment_price", [Value.num 27000]),
    ("speed_discount_price", [Value.num 24000])]⟩

/-- One valid row whose price columns arrive as strings: one unparseable
("abc"), one parseable ("27000"). -/
def dfCoerce : DataFrame :=
  ⟨[("c_code", [Value.str "c-001"]),
    ("flash_price", [Value.str "abc"]),
    ("consignment_price", [Value.str "27000"]),
    ("speed_discount_price", [Value.num 24000])]⟩

/-- A dataset whose c_code value "a" appears three times. -/
def dfTriple : DataFrame :=
  ⟨[("c_code", [Value.str "a", Value.str "a", Value.str "a"]),
    ("flash_price", [Value.num 1, Value.num 2, Value.num 3]),
    ("consignment_price", [Value.num 1, Value.num 2, Value.num 3]),
    ("speed_discount_price", [Value.num 1, Value.num 2, Value.num 3])]⟩

/-- The dataset with zero records and all four columns. -/
def dfEmpty : DataFrame :=
  ⟨[("c_code", []), ("flash_price", []), ("consignment_price", []),
    ("speed_discount_price", [])]⟩

/-- A dataset with an empty c_code, a duplicated c_code and an unparseable
price all at once. -/
def dfEmptyAndMore : DataFrame :=
  ⟨[("c_code", [Value.str "", Value.str "a", Value.str "a"]),
    ("flash_price", [Value.str "abc", Value.num 1, Value.num 1]),
    ("consignment_price", [Value.num 1, Value.num 1, Value.num 1]),
    ("speed_discount_price", [Value.num 1, Value.num 1, Value.num 1])]⟩

/-- A dataset carrying only the c_code column. -/
def dfOnlyCode : DataFrame :=
  ⟨[("c_code", [Value.str "x"])]⟩

/-- A valid dataset with a string price column and an extra non-price
column, to exercise the frame condition of validation. -/
def dfFrame : DataFrame :=
  ⟨[("c_code", [Value.str "c-001", Value.str "c-002"]),
    ("flash_price", [Value.str "25000", Value.str "abc"]),
    ("consignment_price", [Value.num 27000, Value.null]),
    ("speed_discount_price", [Value.num 24000, Value.num 21000]),
    ("other", [Value.str "keep", Value.str "me"])]⟩

/-- Scenario A of the spec: two valid rows, one with a null
consignment_price. -/
def dfScenA : DataFrame :=
  ⟨[("c_code", [Value.str "c-001", Value.str "c-002"]),
    ("flash_price", [Value.num 25000, Value.num 30000]),
    ("consignment_price", [Value.num 27000, Value.null]),
    ("speed_discount_price", [Value.num 24000, Value.num 21000])]⟩

/-! Lemmas about column access and assignment. -/

theorem getColAux_map_ne {c c' : String} (h : c ≠ c') (v : List Value) :
    ∀ l : List (String × List Value),
      getColAux c (l.map (fun p => if p.1 = c' then (p.1, v) else p)) = getColAux c l := by
  intro l
  induction l with
  | nil => rfl
  | cons p rest ih =>
    obtain ⟨n, w⟩ := p
    by_cases hn : n = c'
    · have hnc : ¬ n = c := by rw [hn]; exact fun e => h e.symm
      subst hn
      simp [getColAux, hnc, ih]
    · by_cases hnc : n = c
      · subst hnc
        simp [getColAux, hn]
      · simp [getColAux, hn, hnc, ih]

theorem getColAux_append_ne {c c' : String} (h : c ≠ c') (v : List Value) :
    ∀ l : List (String × List Value),
      getColAux c (l ++ [(c', v)]) = getColAux c l := by
  intro l
  induction l with
  | nil =>
    have hcc : ¬ c' = c := fun e => h e.symm
    simp [getColAux, hcc]
  | cons p rest ih =>
    obtain ⟨n, w⟩ := p
    by_cases hnc : n = c
    · subst hnc
      simp [getColAux]
    · simp [getColAux, hnc, ih]

theorem getCol_setCol_ne {df : DataFrame} {c c' : String} (h : c ≠ c') (v : List Value) :
    (df.setCol c' v).getCol c = df.getCol c := by
  unfold DataFrame.setCol DataFrame.getCol
  by_cases hc : df.names.contains c'
  · rw [if_pos hc]; exact getColAux_map_ne h v df.cols
  · rw [if_neg hc]; exact getColAux_append_ne h v df.cols

theorem getColAux_map_self {c : String} (v : List Value) :
    ∀ l : List (String × List Value), c ∈ l.map Prod.fst →
      getColAux c (l.map (fun p => if p.1 = c then (p.1, v) else p)) = v := by
  intro l
  induction l with
  | nil => intro h; simp at h
  | cons p rest ih =>
    obtain ⟨n, w⟩ := p
    intro hmem
    by_cases hn : n = c
    · subst hn
      simp [getColAux]
    · simp only [List.map_cons, List.mem_cons] at hmem
      rcases hmem with hmem | hmem
      · exact absurd hmem.symm hn
      · simp [getColAux, hn, ih hmem]

theorem getCol_setCol_self {df : DataFrame} {c : String} (v : List Value)
    (h : df.names.contains c) : (df.setCol c v).getCol c = v := by
  unfold DataFrame.setCol DataFrame.getCol
  rw [if_pos h]
  refine getColAux_map_self v df.cols ?_
  have hm : c ∈ df.names := List.elem_iff.mp h
  simpa [DataFrame.names] using hm

theorem mem_names_of_getColAux_ne_nil {c : String} :
    ∀ l : List (String × List Value), getColAux c l ≠ [] → c ∈ l.map Prod.fst := by
  intro l
  induction l with
  | nil => intro h; exact absurd rfl h
  | cons p rest ih =>
    obtain ⟨n, w⟩ := p
    intro h
    by_cases hn : n = c
    · simp [hn]
    · simp only [getColAux, if_neg hn] at h
      simp only [List.map_cons, List.mem_cons]
      exact Or.inr (ih h)

theorem contains_of_getCol_ne_nil {df : DataFrame} {c : String} (h : df.getCol c ≠ []) :
    df.names.contains c = true := by
  have hm : c ∈ df.names := by
    have := mem_names_of_getColAux_ne_nil df.cols h
    simpa [DataFrame.names] using this
  simpa using hm

theorem names_setCol_of_contains {df : DataFrame} {c : String} (v : List Value)
    (h : df.names.contains c) : (df.setCol c v).names = df.names := by
  unfold DataFrame.setCol
  rw [if_pos h]
  show (df.cols.map _).map Prod.fst = df.cols.map Prod.fst
  induction df.cols with
  | nil => rfl
  | cons p rest ih =>
    obtain ⟨n, w⟩ := p
    by_cases hn : n = c <;> simp [hn, ih]

/-! Lemmas about the price-coercion loop. -/

theorem isNumOrNull_toNumericCoerce (v : Value) : (toNumericCoerce v).isNumOrNull = true := by
  cases v with
  | null => rfl
  | num q => rfl
  | str s =>
    rcases hp : parseFloat s with _ | q <;> simp [toNumericCoerce, hp, Value.isNumOrNull]

theorem isNumericDtype_map_coerce (l : List Value) :
    isNumericDtype (l.map toNumericCoerce) = true := by
  unfold isNumericDtype
  rw [List.all_eq_true]
  intro v hv
  rcases List.mem_map.mp hv with ⟨w, _, rfl⟩
  exact isNumOrNull_toNumericCoerce w

theorem normStep_getCol_self (df : DataFrame) (c : String) :
    (normStep df c).getCol c =
      if isNumericDtype (df.getCol c) then df.getCol c
      else (df.getCol c).map toNumericCoerce := by
  unfold normStep
  by_cases h : isNumericDtype (df.getCol c) = true
  · rw [if_pos h, if_pos h]
  · rw [if_neg h, if_neg h]
    have hne : df.getCol c ≠ [] := fun e => h (by rw [e]; rfl)
    exact getCol_setCol_self _ (contains_of_getCol_ne_nil hne)

theorem normStep_getCol_ne {c c' : String} (h : c ≠ c') (df : DataFrame) :
    (normStep df c').getCol c = df.getCol c := by
  unfold normStep
  by_cases hn : isNumericDtype (df.getCol c') = true
  · rw [if_pos hn]
  · rw [if_neg hn]
    exact getCol_setCol_ne h _

theorem normStep_names (df : DataFrame) (c : String) :
    (normStep df c).names = df.names := by
  unfold normStep
  by_cases h : isNumericDtype (df.getCol c) = true
  · rw [if_pos h]
  · rw [if_neg h]
    have hne : df.getCol c ≠ [] := fun e => h (by rw [e]; rfl)
    exact names_setCol_of_contains _ (contains_of_getCol_ne_nil hne)

theorem normStep_getCol_length (df : DataFrame) (c x : String) :
    ((normStep df c).getCol x).length = (df.getCol x).length := by
  by_cases hx : x = c
  · subst hx
    rw [normStep_getCol_self]
    by_cases h : isNumericDtype (df.getCol x) = true
    · rw [if_pos h]
    · rw [if_neg h, List.length_map]
  · rw [normStep_getCol_ne hx]

theorem normStep_numRows (df : DataFrame) (c : String) :
    (normStep df c).numRows = df.numRows := by
  unfold normStep
  by_cases h : isNumericDtype (df.getCol c) = true
  · rw [if_pos h]
  · rw [if_neg h]
    have hne : df.getCol c ≠ [] := fun e => h (by rw [e]; rfl)
    have hcont := contains_of_getCol_ne_nil hne
    unfold DataFrame.setCol
    rw [if_pos hcont]
    obtain ⟨cols⟩ := df
    cases cols with
    | nil => exact absurd rfl hne
    | cons p rest =>
      show DataFrame.numRows ⟨(p :: rest).map _⟩ = DataFrame.numRows ⟨p :: rest⟩
      by_cases hp : p.1 = c
      · have hget : DataFrame.getCol ⟨p :: rest⟩ c = p.2 := by
          show getColAux c (p :: rest) = p.2
          simp [getColAux, hp]
        simp only [List.map_cons, if_pos hp, DataFrame.numRows, hget, List.length_map]
      · simp only [List.map_cons, if_neg hp, DataFrame.numRows]

theorem normalizePrices_eq (df : DataFrame) :
    normalizePrices df =
      normStep (normStep (normStep df "flash_price") "consignment_price")
        "speed_discount_price" := rfl

theorem normalizePrices_getCol_not_price {c : String} (h : c ∉ price_columns)
    (df : DataFrame) : (normalizePrices df).getCol c = df.getCol c := by
  have h1 : c ≠ "flash_price" := fun e => h (by rw [e]; simp [price_columns])
  have h2 : c ≠ "consignment_price" := fun e => h (by rw [e]; simp [price_columns])
  have h3 : c ≠ "speed_discount_price" := fun e => h (by rw [e]; simp [price_columns])
  rw [normalizePrices_eq, normStep_getCol_ne h3, normStep_getCol_ne h2, normStep_getCol_ne h1]

theorem normalizePrices_getCol_c_code (df : DataFrame) :
    (normalizePrices df).getCol "c_code" = df.getCol "c_code" :=
  normalizePrices_getCol_not_price (by decide) df

theorem normalizePrices_names (df : DataFrame) :
    (normalizePrices df).names = df.names := by
  rw [normalizePrices_eq, normStep_names, normStep_names, normStep_names]

theorem normalizePrices_numRows (df : DataFrame) :
    (normalizePrices df).numRows = df.numRows := by
  rw [normalizePrices_eq, normStep_numRows, normStep_numRows, normStep_numRows]

theorem normalizePrices_getCol_length (df : DataFrame) (x : String) :
    ((normalizePrices df).getCol x).length = (df.getCol x).length := by
  rw [normalizePrices_eq, normStep_getCol_length, normStep_getCol_length,
    normStep_getCol_length]

theorem normalizePrices_getCol_flash (df : DataFrame) :
    (normalizePrices df).getCol "flash_price" =
      if isNumericDtype (df.getCol "flash_price") then df.getCol "flash_price"
      else (df.getCol "flash_price").map toNumericCoerce := by
  rw [normalizePrices_eq, normStep_getCol_ne (by decide), normStep_getCol_ne (by decide),
    normStep_getCol_self]

theorem normalizePrices_getCol_consignment (df : DataFrame) :
    (normalizePrices df).getCol "consignment_price" =
      if isNumericDtype (df.getCol "consignment_price") then df.getCol "consignment_price"
      else (df.getCol "consignment_price").map toNumericCoerce := by
  rw [normalizePrices_eq, normStep_getCol_ne (by decide), normStep_getCol_self,
    normStep_getCol_ne (by decide)]

theorem normalizePrices_getCol_speed (df : DataFrame) :
    (normalizePrices df).getCol "speed_discount_price" =
      if isNumericDtype (df.getCol "speed_discount_price") then df.getCol "speed_discount_price"
      else (df.getCol "speed_discount_price").map toNumericCoerce := by
  rw [normalizePrices_eq, normStep_getCol_self, normStep_getCol_ne (by decide),
    normStep_getCol_ne (by decide)]

theorem normalizePrices_getCol_price {c : String} (h : c ∈ price_columns) (df : DataFrame) :
    (normalizePrices df).getCol c =
      if isNumericDtype (df.getCol c) then df.getCol c
      else (df.getCol c).map toNumericCoerce := by
  have hc : c = "flash_price" ∨ c = "consignment_price" ∨ c = "speed_discount_price" := by
    simpa [price_columns] using h
  rcases hc with rfl | rfl | rfl
  · exact normalizePrices_getCol_flash df
  · exact normalizePrices_getCol_consignment df
  · exact normalizePrices_getCol_speed df

/-! Case-analysis lemmas for the four outcomes of `validate_data`. -/

theorem validate_data_missing {df : DataFrame} (h : missingColumns df ≠ []) :
    validate_data df =
      (false, "Missing required columns: " ++ String.intercalate ", " (missingColumns df), df) := by
  unfold validate_data
  rw [if_pos h]

theorem validate_data_emptyCode {df : DataFrame} (h1 : missingColumns df = [])
    (h2 : hasEmptyCode df = true) :
    validate_data df = (false, "c_code column cannot have empty values", df) := by
  unfold validate_data
  rw [if_neg (fun hne => hne h1), if_pos h2]

theorem validate_data_dup {df : DataFrame} (h1 : missingColumns df = [])
    (h2 : hasEmptyCode df = false) (h3 : dupExtras [] (df.getCol "c_code") ≠ []) :
    validate_data df =
      (false,
        "Duplicate c_code values found: " ++
          String.intercalate ", " ((dupExtras [] (df.getCol "c_code")).map valueStr),
        df) := by
  unfold validate_data
  rw [if_neg (fun hne => hne h1), if_neg (by simp [h2]), if_pos h3]

theorem validate_data_ok {df : DataFrame} (h1 : missingColumns df = [])
    (h2 : hasEmptyCode df = false) (h3 : dupExtras [] (df.getCol "c_code") = []) :
    validate_data df = (true, "Data validation successful", normalizePrices df) := by
  unfold validate_data
  rw [if_neg (fun hne => hne h1), if_neg (by simp [h2]), if_neg (fun hne => hne h3)]

/-! Lemmas about the duplicate-extraction and the empty-c_code check. -/

theorem dupExtras_count (x : Value) :
    ∀ (l seen : List Value),
      (dupExtras seen l).count x = l.count x - (if x ∉ seen ∧ x ∈ l then 1 else 0) := by
  intro l
  induction l with
  | nil => intro seen; simp [dupExtras]
  | cons v vs ih =>
    intro seen
    by_cases hvs : v ∈ seen
    · by_cases hxv : x = v
      · subst hxv
        have hxseen : ¬ (x ∉ (x :: seen) ∧ x ∈ vs) := fun hc => hc.1 (List.mem_cons_self x seen)
        rw [dupExtras, if_pos hvs, List.count_cons_self, ih (x :: seen), if_neg hxseen,
          if_neg (fun hc => hc.1 hvs)]
        simp [List.count_cons_self]
      · have hmem : (x ∉ (v :: seen) ∧ x ∈ vs) ↔ (x ∉ seen ∧ x ∈ v :: vs) := by
          constructor
          · rintro ⟨ha, hb⟩
            exact ⟨fun hx => ha (List.mem_cons_of_mem v hx), List.mem_cons_of_mem v hb⟩
          · rintro ⟨ha, hb⟩
            refine ⟨fun hx => ?_, ?_⟩
            · rcases List.mem_cons.mp hx with h | h
              · exact hxv h
              · exact ha h
            · rcases List.mem_cons.mp hb with h | h
              · exact absurd h hxv
              · exact h
        rw [dupExtras, if_pos hvs, List.count_cons_of_ne hxv, ih (v :: seen),
          List.count_cons_of_ne hxv]
        congr 1
        simp only [hmem]
    · by_cases hxv : x = v
      · subst hxv
        have hxseen : ¬ (x ∉ (x :: seen) ∧ x ∈ vs) := fun hc => hc.1 (List.mem_cons_self x seen)
        rw [dupExtras, if_neg hvs, ih (x :: seen), if_neg hxseen,
          if_pos ⟨hvs, List.mem_cons_self x vs⟩, List.count_cons_self]
        omega
      · have hmem : (x ∉ (v :: seen) ∧ x ∈ vs) ↔ (x ∉ seen ∧ x ∈ v :: vs) := by
          constructor
          · rintro ⟨ha, hb⟩
            exact ⟨fun hx => ha (List.mem_cons_of_mem v hx), List.mem_cons_of_mem v hb⟩
          · rintro ⟨ha, hb⟩
            refine ⟨fun hx => ?_, ?_⟩
            · rcases List.mem_cons.mp hx with h | h
              · exact hxv h
              · exact ha h
            · rcases List.mem_cons.mp hb with h | h
              · exact absurd h hxv
              · exact h
        rw [dupExtras, if_neg hvs, ih (v :: seen), List.count_cons_of_ne hxv]
        congr 1
        simp only [hmem]

theorem dupExtras_count_nil_seen (x : Value) (l : List Value) :
    (dupExtras [] l).count x = l.count x - (if x ∈ l then 1 else 0) := by
  rw [dupExtras_count x l []]
  congr 1
  simp

theorem dupExtras_eq_nil_of_nodup {l : List Value} (h : l.Nodup) : dupExtras [] l = [] := by
  by_contra hne
  rcases List.exists_mem_of_ne_nil _ hne with ⟨y, hy⟩
  have hcount : 1 ≤ (dupExtras [] l).count y := List.one_le_count_iff.mpr hy
  rw [dupExtras_count_nil_seen] at hcount
  by_cases hyl : y ∈ l
  · rw [if_pos hyl] at hcount
    have : 2 ≤ l.count y := by omega
    have hle := List.nodup_iff_count_le_one.mp h y
    omega
  · rw [if_neg hyl] at hcount
    rw [List.count_eq_zero_of_not_mem hyl] at hcount
    omega

theorem dupExtras_ne_nil_of_count {l : List Value} {x : Value} (h : 2 ≤ l.count x) :
    dupExtras [] l ≠ [] := by
  intro he
  have hx : x ∈ l := List.count_pos_iff.mp (by omega)
  have := dupExtras_count_nil_seen x l
  rw [he, if_pos hx] at this
  simp only [List.count_nil] at this
  omega

theorem hasEmptyCode_of_mem {df : DataFrame}
    (h : ∃ v ∈ df.getCol "c_code", v = Value.null ∨ v = Value.str "") :
    hasEmptyCode df = true := by
  rcases h with ⟨v, hv, hcase⟩
  unfold hasEmptyCode
  rcases hcase with rfl | rfl
  · have : (df.getCol "c_code").any (fun v => v = Value.null) = true := by
      rw [List.any_eq_true]
      exact ⟨Value.null, hv, by simp⟩
    rw [this, Bool.true_or]
  · have : (df.getCol "c_code").any (fun v => v = Value.str "") = true := by
      rw [List.any_eq_true]
      exact ⟨Value.str "", hv, by simp⟩
    rw [this, Bool.or_true]

theorem hasEmptyCode_eq_false {df : DataFrame}
    (h : ∀ v ∈ df.getCol "c_code", v ≠ Value.null ∧ v ≠ Value.str "") :
    hasEmptyCode df = false := by
  unfold hasEmptyCode
  rw [Bool.or_eq_false_iff]
  constructor
  · rw [List.any_eq_false]
    intro v hv
    simpa using (h v hv).1
  · rw [List.any_eq_false]
    intro v hv
    simpa using (h v hv).2

theorem missingColumns_ne_nil {df : DataFrame} {r : String}
    (hr : r ∈ required_columns) (h : ¬ r ∈ df.names) : missingColumns df ≠ [] := by
  have hmem : r ∈ missingColumns df := by
    unfold missingColumns
    rw [List.mem_filter]
    exact ⟨hr, by simpa using h⟩
  exact List.ne_nil_of_mem hmem

theorem required_mem_names_of_missing_nil {df : DataFrame} {r : String}
    (hr : r ∈ required_columns) (h : missingColumns df = []) : r ∈ df.names := by
  by_contra hn
  exact missingColumns_ne_nil hr hn h

theorem missingColumns_normalizePrices (df : DataFrame) :
    missingColumns (normalizePrices df) = missingColumns df := by
  unfold missingColumns
  rw [normalizePrices_names]

theorem hasEmptyCode_normalizePrices (df : DataFrame) :
    hasEmptyCode (normalizePrices df) = hasEmptyCode df := by
  unfold hasEmptyCode
  rw [normalizePrices_getCol_c_code]

theorem validate_data_snd_cases (df : DataFrame) :
    (validate_data df).2.2 = df ∨ (validate_data df).2.2 = normalizePrices df := by
  unfold validate_data
  by_cases h1 : missingColumns df ≠ []
  · rw [if_pos h1]; exact Or.inl rfl
  · rw [if_neg h1]
    by_cases h2 : hasEmptyCode df = true
    · rw [if_pos h2]; exact Or.inl rfl
    · rw [if_neg h2]
      by_cases h3 : dupExtras [] (df.getCol "c_code") ≠ []
      · rw [if_pos h3]; exact Or.inl rfl
      · rw [if_neg h3]; exact Or.inr rfl

theorem missingColumns_nil_of_ok {df : DataFrame} (h : (validate_data df).1 = true) :
    missingColumns df = [] := by
  by_contra hne
  rw [validate_data_missing hne] at h
  simp at h

theorem zipRows_length : ∀ (as bs cs ds : List Value),
    bs.length = as.length → cs.length = as.length → ds.length = as.length →
    (zipRows as bs cs ds).length = as.length := by
  intro as
  induction as with
  | nil =>
    intro bs cs ds h1 _ _
    cases bs with
    | nil => rfl
    | cons b bs => simp at h1
  | cons a as ih =>
    intro bs cs ds h1 h2 h3
    cases bs with
    | nil => simp at h1
    | cons b bs =>
      cases cs with
      | nil => simp at h2
      | cons c cs =>
        cases ds with
        | nil => simp at h3
        | cons d ds =>
          simp only [zipRows, List.length_cons]
          rw [ih bs cs ds (by simpa using h1) (by simpa using h2) (by simpa using h3)]

theorem dfToRows_length {df : DataFrame} (hm : missingColumns df = []) (hr : Rect df) :
    (dfToRows df).length = df.numRows := by
  have l1 : (df.getCol "c_code").length = df.numRows :=
    hr _ (required_mem_names_of_missing_nil (by simp [required_columns]) hm)
  have l2 : (df.getCol "flash_price").length = df.numRows :=
    hr _ (required_mem_names_of_missing_nil (by simp [required_columns]) hm)
  have l3 : (df.getCol "consignment_price").length = df.numRows :=
    hr _ (required_mem_names_of_missing_nil (by simp [required_columns]) hm)
  have l4 : (df.getCol "speed_discount_price").length = df.numRows :=
    hr _ (required_mem_names_of_missing_nil (by simp [required_columns]) hm)
  unfold dfToRows
  rw [zipRows_length _ _ _ _ (by rw [l1, l2]) (by rw [l1, l3]) (by rw [l1, l4]), l1]

theorem parseFloat_eval_27000 : parseFloat "27000" = some 27000 := by
  have hp : parseParts "27000" = some ⟨false, 27000, 0, 0, false, 0⟩ := by decide
  unfold parseFloat
  rw [hp]
  show some (partsToRat ⟨false, 27000, 0, 0, false, 0⟩) = some 27000
  congr 1
  simp only [partsToRat]
  norm_num

/-! The claims. -/

/-- C1: the claim says that a non-empty price value that cannot be parsed
as a decimal number makes `validate_data` fail naming the offending
column.  The code does the opposite: `pd.to_numeric(..., errors='coerce')`
never raises, so on Scenario D (flash_price "abc") validation succeeds and
the unparseable value is silently replaced by NaN; the failure branch
naming the column is unreachable. -/
theorem C1_code_accepts_unparseable_price :
    (validate_data dfScenD).1 = true ∧
    (validate_data dfScenD).2.1 = "Data validation successful" ∧
    ((validate_data dfScenD).2.2).getCol "flash_price" = [Value.null] := by
  refine ⟨?_, ?_, ?_⟩ <;> decide

/-- C2: for every dataset passing the column-presence, non-empty-c_code and
uniqueness checks, validation succeeds, each not-already-numeric price
column is replaced by its parse-or-null image, an unparseable string
becomes null, and the dataset that proceeds to ingestion is the normalized
one. -/
theorem C2_coerce_or_null (df : DataFrame)
    (h1 : missingColumns df = [])
    (h2 : hasEmptyCode df = false)
    (h3 : dupExtras [] (df.getCol "c_code") = []) :
    validate_data df = (true, "Data validation successful", normalizePrices df) ∧
    (∀ c ∈ price_columns, isNumericDtype (df.getCol c) = false →
      (normalizePrices df).getCol c = (df.getCol c).map toNumericCoerce) ∧
    (∀ s, parseFloat s = none → toNumericCoerce (Value.str s) = Value.null) ∧
    (∀ s f e t, runUpload df s f e t = upload_to_bigquery s f e (normalizePrices df) t) := by
  have hok := validate_data_ok h1 h2 h3
  refine ⟨hok, ?_, ?_, ?_⟩
  · intro c hc hnum
    rw [normalizePrices_getCol_price hc, if_neg (by simp [hnum])]
  · intro s hs
    simp [toNumericCoerce, hs]
  · intro s f e t
    simp [runUpload, hok]

/-- C2 witness: the one-row dataset with flash_price "abc" and
consignment_price "27000" satisfies the three checks, and its flash_price
column is coerced to null. -/
theorem C2_coerce_or_null_witness :
    missingColumns dfCoerce = [] ∧ hasEmptyCode dfCoerce = false ∧
    dupExtras [] (dfCoerce.getCol "c_code") = [] ∧
    (normalizePrices dfCoerce).getCol "flash_price" = [Value.null] ∧
    (normalizePrices dfCoerce).getCol "consignment_price" = [Value.num 27000] := by
  refine ⟨by decide, by decide, by decide, ?_, ?_⟩
  · rw [(C2_coerce_or_null dfCoerce (by decide) (by decide) (by decide)).2.1 "flash_price"
      (by decide) (by decide)]
    decide
  · rw [(C2_coerce_or_null dfCoerce (by decide) (by decide) (by decide)).2.1 "consignment_price"
      (by decide) (by decide)]
    have hcol : dfCoerce.getCol "consignment_price" = [Value.str "27000"] := by decide
    rw [hcol]
    simp [toNumericCoerce, parseFloat_eval_27000]

/-- C3 counterexample: on the dataset whose c_code "a" appears three times,
`validate_data` fails but the message lists "a" twice — once per extra
occurrence — not once as the claim states. -/
theorem C3_counterexample_triple :
    (validate_data dfTriple).1 = false ∧
    (validate_data dfTriple).2.1 = "Duplicate c_code values found: a, a" ∧
    (validate_data dfTriple).2.1 ≠ "Duplicate c_code values found: a" := by
  refine ⟨?_, ?_, ?_⟩ <;> decide

/-- C3 amended: for every dataset with all columns present, no empty or
null c_code and some c_code occurring two or more times, `validate_data`
fails listing the duplicated values, one entry per extra occurrence: each
value is listed one fewer time than it occurs (a value appearing three
times is listed twice). -/
theorem C3_duplicates_listed_per_extra_occurrence (df : DataFrame)
    (h1 : missingColumns df = [])
    (h2 : ∀ v ∈ df.getCol "c_code", v ≠ Value.null ∧ v ≠ Value.str "")
    (h3 : ∃ v, 2 ≤ (df.getCol "c_code").count v) :
    (validate_data df).1 = false ∧
    (validate_data df).2.1 =
      "Duplicate c_code values found: " ++
        String.intercalate ", " ((dupExtras [] (df.getCol "c_code")).map valueStr) ∧
    (∀ v, (dupExtras [] (df.getCol "c_code")).count v =
      (df.getCol "c_code").count v - (if v ∈ df.getCol "c_code" then 1 else 0)) := by
  obtain ⟨v, hv⟩ := h3
  have hne := dupExtras_ne_nil_of_count hv
  have hd := validate_data_dup h1 (hasEmptyCode_eq_false h2) hne
  rw [hd]
  exact ⟨rfl, rfl, fun x => dupExtras_count_nil_seen x _⟩

/-- C3 witness: the triple-"a" dataset satisfies the hypotheses and the
reported list counts "a" twice. -/
theorem C3_duplicates_witness :
    missingColumns dfTriple = [] ∧
    (∃ v, 2 ≤ (dfTriple.getCol "c_code").count v) ∧
    (dupExtras [] (dfTriple.getCol "c_code")).count (Value.str "a") = 2 := by
  refine ⟨by decide, ⟨Value.str "a", by decide⟩, ?_⟩
  rw [(C3_duplicates_listed_per_extra_occurrence dfTriple (by decide) (by decide)
    ⟨Value.str "a", by decide⟩).2.2 (Value.str "a")]
  decide

/-- C4: every dataset with all four columns, only non-empty unique c_codes
and numeric-or-null prices — including the zero-record dataset — validates
successfully with the success message. -/
theorem C4_validate_success (df : DataFrame)
    (h1 : missingColumns df = [])
    (h2 : ∀ v ∈ df.getCol "c_code", v ≠ Value.null ∧ v ≠ Value.str "")
    (h3 : (df.getCol "c_code").Nodup)
    (_h4 : ∀ c ∈ price_columns, ∀ v ∈ df.getCol c, v.isNumOrNull = true) :
    (validate_data df).1 = true ∧ (validate_data df).2.1 = "Data validation successful" := by
  have hok := validate_data_ok h1 (hasEmptyCode_eq_false h2) (dupExtras_eq_nil_of_nodup h3)
  rw [hok]
  exact ⟨rfl, rfl⟩

/-- C4 witness: the zero-record dataset satisfies the hypotheses vacuously
and validates successfully. -/
theorem C4_validate_success_witness :
    missingColumns dfEmpty = [] ∧ (dfEmpty.getCol "c_code").Nodup ∧
    (validate_data dfEmpty).1 = true ∧
    (validate_data dfEmpty).2.1 = "Data validation successful" :=
  ⟨by decide, by decide,
    C4_validate_success dfEmpty (by decide) (by decide) (by decide) (by decide)⟩

/-- C5: for every dataset with all four columns and some empty or null
c_code, `validate_data` fails with the fixed c_code message, whatever else
(duplicates, unparseable prices) the dataset contains: the empty-c_code
check short-circuits the later checks. -/
theorem C5_empty_code_precedence (df : DataFrame)
    (h1 : missingColumns df = [])
    (h2 : ∃ v ∈ df.getCol "c_code", v = Value.null ∨ v = Value.str "") :
    validate_data df = (false, "c_code column cannot have empty values", df) :=
  validate_data_emptyCode h1 (hasEmptyCode_of_mem h2)

/-- C5 witness: a dataset with an empty c_code, a duplicate c_code and an
unparseable price still reports the empty-c_code failure. -/
theorem C5_empty_code_precedence_witness :
    missingColumns dfEmptyAndMore = [] ∧
    2 ≤ (dfEmptyAndMore.getCol "c_code").count (Value.str "a") ∧
    parseFloat "abc" = none ∧
    validate_data dfEmptyAndMore =
      (false, "c_code column cannot have empty values", dfEmptyAndMore) :=
  ⟨by decide, by decide, by decide,
    C5_empty_code_precedence dfEmptyAndMore (by decide)
      ⟨Value.str "", by decide, Or.inr rfl⟩⟩

/-- C6: for every dataset missing at least one required column,
`validate_data` fails with the comma-joined list of the missing required
columns, unconditionally on the row contents. -/
theorem C6_missing_columns (df : DataFrame)
    (h : ∃ r ∈ required_columns, ¬ r ∈ df.names) :
    validate_data df =
      (false, "Missing required columns: " ++ String.intercalate ", " (missingColumns df),
        df) := by
  rcases h with ⟨r, hr, hn⟩
  exact validate_data_missing (missingColumns_ne_nil hr hn)

/-- C6 witness: a dataset carrying only c_code is rejected naming the
three missing columns, comma-joined. -/
theorem C6_missing_columns_witness :
    (∃ r ∈ required_columns, ¬ r ∈ dfOnlyCode.names) ∧
    validate_data dfOnlyCode =
      (false,
        "Missing required columns: flash_price, consignment_price, speed_discount_price",
        dfOnlyCode) := by
  refine ⟨⟨"flash_price", by decide, by decide⟩, ?_⟩
  rw [C6_missing_columns dfOnlyCode ⟨"flash_price", by decide, by decide⟩]
  decide

/-- C7: `validate_data` is idempotent: run on the dataset left behind by a
first call, it returns the same ok flag and the same message. -/
theorem C7_validate_idempotent (df : DataFrame) :
    (validate_data ((validate_data df).2.2)).1 = (validate_data df).1 ∧
    (validate_data ((validate_data df).2.2)).2.1 = (validate_data df).2.1 := by
  by_cases h1 : missingColumns df ≠ []
  · simp [validate_data_missing h1]
  · replace h1 : missingColumns df = [] := not_not.mp h1
    by_cases h2 : hasEmptyCode df = true
    · simp [validate_data_emptyCode h1 h2]
    · replace h2 : hasEmptyCode df = false := by simpa using h2
      by_cases h3 : dupExtras [] (df.getCol "c_code") ≠ []
      · simp [validate_data_dup h1 h2 h3]
      · replace h3 : dupExtras [] (df.getCol "c_code") = [] := not_not.mp h3
        have hok := validate_data_ok h1 h2 h3
        have h1n : missingColumns (normalizePrices df) = [] := by
          rw [missingColumns_normalizePrices, h1]
        have h2n : hasEmptyCode (normalizePrices df) = false := by
          rw [hasEmptyCode_normalizePrices, h2]
        have h3n : dupExtras [] ((normalizePrices df).getCol "c_code") = [] := by
          rw [normalizePrices_getCol_c_code, h3]
        have hok2 := validate_data_ok h1n h2n h3n
        simp [hok, hok2]

/-- C8: validation changes at most the three price columns: the c_code
column, every non-price column and the row count are unchanged, and the
upload pipeline feeds exactly the dataset left by validation into the
ingestion call. -/
theorem C8_validation_frame (df : DataFrame) (s f : Option Credentials)
    (e : Option String) (t : List BQRow) :
    ((validate_data df).2.2).getCol "c_code" = df.getCol "c_code" ∧
    ((validate_data df).2.2).numRows = df.numRows ∧
    (∀ c, c ∉ price_columns → ((validate_data df).2.2).getCol c = df.getCol c) ∧
    ((validate_data df).1 = true →
      runUpload df s f e t = upload_to_bigquery s f e ((validate_data df).2.2) t) := by
  rcases validate_data_snd_cases df with h | h <;> rw [h]
  · exact ⟨rfl, rfl, fun c _ => rfl, fun hv => by simp [runUpload, hv, h]⟩
  · exact ⟨normalizePrices_getCol_c_code df, normalizePrices_numRows df,
      fun c hc => normalizePrices_getCol_not_price hc df,
      fun hv => by simp [runUpload, hv, h]⟩

/-- C8 witness: on a valid dataset with string prices and an extra column,
validation normalizes only prices, preserves c_code, the extra column and
the row count, and the pipeline uploads the normalized dataset. -/
theorem C8_validation_frame_witness :
    ((validate_data dfFrame).2.2).getCol "c_code" = dfFrame.getCol "c_code" ∧
    ((validate_data dfFrame).2.2).numRows = dfFrame.numRows ∧
    ((validate_data dfFrame).2.2).getCol "other" = dfFrame.getCol "other" ∧
    runUpload dfFrame (some ⟨"tok"⟩) none none [] =
      upload_to_bigquery (some ⟨"tok"⟩) none none ((validate_data dfFrame).2.2) [] :=
  ⟨(C8_validation_frame dfFrame (some ⟨"tok"⟩) none none []).1,
    (C8_validation_frame dfFrame (some ⟨"tok"⟩) none none []).2.1,
    (C8_validation_frame dfFrame (some ⟨"tok"⟩) none none []).2.2.1 "other" (by decide),
    (C8_validation_frame dfFrame (some ⟨"tok"⟩) none none []).2.2.2 (by decide)⟩

/-- C9: with no credentials obtainable from the secret store nor from the
local credential file, ingestion returns the fixed credential failure and
leaves the target table exactly as it was, for every store behavior and
dataset. -/
theorem C9_no_credentials (e : Option String) (df : DataFrame) (table : List BQRow) :
    upload_to_bigquery none none e df table =
      (false, "Error: No credentials found for BigQuery access", table) := rfl

/-- C10: with credentials available and the store confirming, ingestion of
a validated rectangular dataset issues the single bulk append of all its
rows under the fixed schema in append mode, reports exactly the row count,
and grows the table by exactly that count leaving prior rows in place. -/
theorem C10_append_contract (secrets localFile : Option Credentials) (df : DataFrame)
    (table : List BQRow)
    (hcred : ¬ (secrets = none ∧ localFile = none))
    (hok : (validate_data df).1 = true)
    (hrect : Rect df) :
    upload_to_bigquery secrets localFile none df table =
      (true,
        "Successfully uploaded " ++ toString df.numRows ++ " rows to showroom_discount table",
        table ++ dfToRows df) ∧
    (dfToRows df).length = df.numRows ∧
    (table ++ dfToRows df).length = table.length + df.numRows ∧
    (table ++ dfToRows df).take table.length = table ∧
    jobSchema =
      [⟨"c_code", "STRING", "REQUIRED"⟩, ⟨"flash_price", "FLOAT64", "NULLABLE"⟩,
        ⟨"consignment_price", "FLOAT64", "NULLABLE"⟩,
        ⟨"speed_discount_price", "FLOAT64", "NULLABLE"⟩] ∧
    writeDisposition = "WRITE_APPEND" := by
  have hlen := dfToRows_length (missingColumns_nil_of_ok hok) hrect
  refine ⟨?_, hlen, by rw [List.length_append, hlen], by simp, rfl, rfl⟩
  match secrets, localFile with
  | none, none => exact absurd ⟨rfl, rfl⟩ hcred
  | some c, none => rfl
  | none, some c => rfl
  | some c, some c2 => rfl

/-- C10 witness: Scenario A's two-row dataset, with a secret-store
credential and an empty table, is appended as two rows with the reported
count 2. -/
theorem C10_append_contract_witness :
    (validate_data dfScenA).1 = true ∧ Rect dfScenA ∧
    upload_to_bigquery (some ⟨"tok"⟩) none none dfScenA [] =
      (true, "Successfully uploaded 2 rows to showroom_discount table", dfToRows dfScenA) ∧
    (dfToRows dfScenA).length = 2 := by
  have h := C10_append_contract (some ⟨"tok"⟩) none dfScenA [] (by simp) (by decide) (by decide)
  refine ⟨by decide, by decide, ?_, ?_⟩
  · rw [h.1]
    decide
  · rw [h.2.1]
    decide

end CarDiscount
